import Mathlib

/-
Shallow embedding of the pagination, resource-client response shaping and
error-normalization logic of the jira-api-client TypeScript library
(src/utils/pagination.ts, src/api/issues.ts, src/api/projects.ts,
src/api/users.ts, src/utils/error.ts), together with theorems settling the
behavioral claims about it.  TypeScript numbers are modelled as Int where
signedness can matter (offsets, totals) and HTTP status codes as Nat; the
asynchronous HTTP layer is abstracted away: each operation is modelled as a
pure function from the upstream response it receives to the value it returns,
and the page-fetching callback of the aggregation loop as an explicit
function argument returning Except.
-/

namespace JiraClient

/-- Pagination parameters as in the TS interface PaginationParams:
both fields optional. -/
structure PaginationParams where
  maxResults : Option Int := none
  startAt : Option Int := none
  deriving DecidableEq

/-- The TS type Required of PaginationParams: both fields present. -/
structure RequiredPaginationParams where
  maxResults : Int
  startAt : Int
  deriving DecidableEq

/-- Paginated response shape returned to callers (TS PaginatedResponse). -/
structure PaginatedResponse (T : Type) where
  values : List T
  maxResults : Int
  startAt : Int
  total : Int
  isLast : Bool
  deriving DecidableEq

/-- Default pagination parameters (src/utils/pagination.ts). -/
def DEFAULT_PAGINATION : RequiredPaginationParams :=
  { maxResults := 50, startAt := 0 }

/-- createPaginationParams from src/utils/pagination.ts: fills unset fields
with the defaults.  The optional TS argument is an Option here; the
null-coalescing chain params?.field ?? default becomes Option.getD over
Option.bind. -/
def createPaginationParams (params : Option PaginationParams) :
    RequiredPaginationParams :=
  { maxResults := (params.bind (·.maxResults)).getD DEFAULT_PAGINATION.maxResults,
    startAt := (params.bind (·.startAt)).getD DEFAULT_PAGINATION.startAt }

/-- createPaginatedResponse from src/utils/pagination.ts: copies the request
cursor into the response and derives isLast from startAt, the item count and
total. -/
def createPaginatedResponse {T : Type} (values : List T) (total : Int)
    (params : RequiredPaginationParams) : PaginatedResponse T :=
  { values := values
    maxResults := params.maxResults
    startAt := params.startAt
    total := total
    isLast := decide (params.startAt + (values.length : Int) ≥ total) }

/-- View of normalized parameters as the optional-field TS type (a
Required value used where PaginationParams is expected, as TS structural
subtyping allows). -/
def RequiredPaginationParams.toParams (p : RequiredPaginationParams) :
    PaginationParams :=
  { maxResults := some p.maxResults, startAt := some p.startAt }

/-- C8: createPaginationParams is pure, applies the defaults 50 and 0 to
absent fields, keeps present fields, and is idempotent: renormalizing an
already-normalized value returns it unchanged. -/
theorem createPaginationParams_defaults_idempotent :
    (∀ ms ss : Int,
      createPaginationParams (some { maxResults := some ms, startAt := some ss })
        = { maxResults := ms, startAt := ss })
    ∧ (∀ ms : Int,
      createPaginationParams (some { maxResults := some ms, startAt := none })
        = { maxResults := ms, startAt := 0 })
    ∧ (∀ ss : Int,
      createPaginationParams (some { maxResults := none, startAt := some ss })
        = { maxResults := 50, startAt := ss })
    ∧ createPaginationParams (some { maxResults := none, startAt := none })
        = { maxResults := 50, startAt := 0 }
    ∧ createPaginationParams none = { maxResults := 50, startAt := 0 }
    ∧ (∀ p : RequiredPaginationParams,
        createPaginationParams (some p.toParams) = p) := by
  refine ⟨fun ms ss => rfl, fun ms => rfl, fun ss => rfl, rfl, rfl, fun p => rfl⟩

/-- fetchAllPages loop from src/utils/pagination.ts, made terminating with
explicit fuel (the TS loop has no iteration cap; none needed within fuel
covers the possibly-unbounded run).  The first component of the result
records, in order, the parameter values passed to fetchPage — the TS code
mutates a single params object, which this recursion threads explicitly —
and the second is the outcome: the accumulated values on success, or the
error raised by the failing fetchPage call (the TS loop installs no handler,
so a rejection propagates). -/
def fetchAllPagesAux {E T : Type}
    (fetchPage : RequiredPaginationParams → Except E (PaginatedResponse T)) :
    RequiredPaginationParams → List T → Nat →
      Option (List RequiredPaginationParams × Except E (List T))
  | _, _, 0 => none
  | params, results, Nat.succ fuel =>
    match fetchPage params with
    | Except.error e => some ([params], Except.error e)
    | Except.ok response =>
      if response.isLast then
        some ([params], Except.ok (results ++ response.values))
      else
        match fetchAllPagesAux fetchPage
            { params with startAt := params.startAt + params.maxResults }
            (results ++ response.values) fuel with
        | none => none
        | some (calls, out) => some (params :: calls, out)

/-- fetchAllPages from src/utils/pagination.ts: normalize the initial
parameters, then loop; the value a caller sees is the second component of
the instrumented loop. -/
def fetchAllPages {E T : Type}
    (fetchPage : RequiredPaginationParams → Except E (PaginatedResponse T))
    (params : Option PaginationParams) (fuel : Nat) :
    Option (Except E (List T)) :=
  (fetchAllPagesAux fetchPage (createPaginationParams params) [] fuel).map Prod.snd

/-- The sequence of parameter values fetchAllPages passes to fetchPage, in
call order. -/
def fetchAllPagesCalls {E T : Type}
    (fetchPage : RequiredPaginationParams → Except E (PaginatedResponse T))
    (params : Option PaginationParams) (fuel : Nat) :
    Option (List RequiredPaginationParams) :=
  (fetchAllPagesAux fetchPage (createPaginationParams params) [] fuel).map Prod.fst

/-- A call sequence in which every step follows a response with isLast false
and advances startAt by the maxResults of the cursor itself, keeping maxResults
unchanged. -/
def advancesByPageSize {E T : Type}
    (fetchPage : RequiredPaginationParams → Except E (PaginatedResponse T)) :
    List RequiredPaginationParams → Prop
  | p :: q :: rest =>
      (∃ r, fetchPage p = Except.ok r ∧ r.isLast = false)
      ∧ q.startAt = p.startAt + p.maxResults
      ∧ q.maxResults = p.maxResults
      ∧ advancesByPageSize fetchPage (q :: rest)
  | _ => True

/-- The values array of the page fetchPage returns for a cursor (empty for a
failing call). -/
def pageItems {E T : Type}
    (fetchPage : RequiredPaginationParams → Except E (PaginatedResponse T))
    (c : RequiredPaginationParams) : List T :=
  match fetchPage c with
  | Except.ok r => r.values
  | Except.error _ => []

/-- The loop records at least one call whenever it returns. -/
theorem fetchAllPagesAux_ne_nil {E T : Type}
    (fp : RequiredPaginationParams → Except E (PaginatedResponse T))
    (fuel : Nat) :
    ∀ p acc calls out, fetchAllPagesAux fp p acc fuel = some (calls, out) →
      calls ≠ [] := by
  induction fuel with
  | zero => intro p acc calls out h; simp [fetchAllPagesAux] at h
  | succ fuel ih =>
    intro p acc calls out h
    simp only [fetchAllPagesAux] at h
    split at h
    next e heq =>
      simp at h
      simp [← h.1]
    next r heq =>
      split at h
      next hl =>
        simp at h
        simp [← h.1]
      next hl =>
        split at h
        next haux => simp at h
        next calls2 out2 haux =>
          simp at h
          simp [← h.1]

/-- The first recorded call carries exactly the parameters the loop was
entered with. -/
theorem fetchAllPagesAux_head {E T : Type}
    (fp : RequiredPaginationParams → Except E (PaginatedResponse T))
    (fuel : Nat) :
    ∀ p acc calls out, fetchAllPagesAux fp p acc fuel = some (calls, out) →
      calls.head? = some p := by
  induction fuel with
  | zero => intro p acc calls out h; simp [fetchAllPagesAux] at h
  | succ fuel ih =>
    intro p acc calls out h
    simp only [fetchAllPagesAux] at h
    split at h
    next e heq =>
      simp at h
      simp [← h.1]
    next r heq =>
      split at h
      next hl =>
        simp at h
        simp [← h.1]
      next hl =>
        split at h
        next haux => simp at h
        next calls2 out2 haux =>
          simp at h
          simp [← h.1]

/-- Every recorded call after the first was reached from a response with
isLast false, advancing startAt by the maxResults of the cursor itself and leaving
maxResults unchanged. -/
theorem fetchAllPagesAux_chain {E T : Type}
    (fp : RequiredPaginationParams → Except E (PaginatedResponse T))
    (fuel : Nat) :
    ∀ p acc calls out, fetchAllPagesAux fp p acc fuel = some (calls, out) →
      advancesByPageSize fp calls := by
  induction fuel with
  | zero => intro p acc calls out h; simp [fetchAllPagesAux] at h
  | succ fuel ih =>
    intro p acc calls out h
    simp only [fetchAllPagesAux] at h
    split at h
    next e heq =>
      simp at h
      rw [← h.1]
      trivial
    next r heq =>
      split at h
      next hl =>
        simp at h
        rw [← h.1]
        trivial
      next hl =>
        split at h
        next haux => simp at h
        next calls2 out2 haux =>
          simp at h
          obtain ⟨hc, ho⟩ := h
          have hhead := fetchAllPagesAux_head fp fuel _ _ _ _ haux
          cases calls2 with
          | nil => simp at hhead
          | cons q rest =>
            simp at hhead
            rw [← hc]
            refine ⟨⟨r, heq, by simpa using hl⟩, ?_, ?_, ih _ _ _ _ haux⟩
            · rw [hhead]
            · rw [hhead]

/-- If the call the loop stopped at returned a page at all, that page had
isLast true (otherwise the loop stopped because the call failed). -/
theorem fetchAllPagesAux_last {E T : Type}
    (fp : RequiredPaginationParams → Except E (PaginatedResponse T))
    (fuel : Nat) :
    ∀ p acc calls out, fetchAllPagesAux fp p acc fuel = some (calls, out) →
      ∀ (hne : calls ≠ []) r, fp (calls.getLast hne) = Except.ok r →
        r.isLast = true := by
  induction fuel with
  | zero => intro p acc calls out h; simp [fetchAllPagesAux] at h
  | succ fuel ih =>
    intro p acc calls out h
    simp only [fetchAllPagesAux] at h
    split at h
    next e heq =>
      simp at h
      obtain ⟨hc, ho⟩ := h
      subst hc
      intro hne r hr
      simp at hr
      rw [heq] at hr
      exact absurd hr (by simp)
    next r heq =>
      split at h
      next hl =>
        simp at h
        obtain ⟨hc, ho⟩ := h
        subst hc
        intro hne r2 hr2
        simp at hr2
        rw [heq] at hr2
        simp at hr2
        rw [← hr2]
        exact hl
      next hl =>
        split at h
        next haux => simp at h
        next calls2 out2 haux =>
          simp at h
          obtain ⟨hc, ho⟩ := h
          subst hc
          intro hne r2 hr2
          have hne2 : calls2 ≠ [] := fetchAllPagesAux_ne_nil fp fuel _ _ _ _ haux
          rw [List.getLast_cons hne2] at hr2
          exact ih _ _ _ _ haux hne2 r2 hr2

/-- A first response with isLast true ends the aggregation after exactly one
recorded call. -/
theorem fetchAllPagesAux_single {E T : Type}
    (fp : RequiredPaginationParams → Except E (PaginatedResponse T))
    (fuel : Nat) (p : RequiredPaginationParams) (acc : List T)
    (r : PaginatedResponse T) (hfp : fp p = Except.ok r)
    (hl : r.isLast = true) :
    fetchAllPagesAux fp p acc (Nat.succ fuel)
      = some ([p], Except.ok (acc ++ r.values)) := by
  simp [fetchAllPagesAux, hfp, hl]

/-- A successful aggregation returns the accumulator followed by the
concatenation, in call order, of the values of the fetched pages. -/
theorem fetchAllPagesAux_ok_items {E T : Type}
    (fp : RequiredPaginationParams → Except E (PaginatedResponse T))
    (fuel : Nat) :
    ∀ p acc calls out,
      fetchAllPagesAux fp p acc fuel = some (calls, Except.ok out) →
      out = acc ++ (calls.map (pageItems fp)).flatten := by
  induction fuel with
  | zero => intro p acc calls out h; simp [fetchAllPagesAux] at h
  | succ fuel ih =>
    intro p acc calls out h
    simp only [fetchAllPagesAux] at h
    split at h
    next e heq => simp at h
    next r heq =>
      split at h
      next hl =>
        simp at h
        obtain ⟨hc, ho⟩ := h
        rw [← hc, ← ho]
        simp [pageItems, heq]
      next hl =>
        split at h
        next haux => simp at h
        next calls2 out2 haux =>
          simp at h
          obtain ⟨hc, ho⟩ := h
          rw [ho] at haux
          have := ih _ _ _ _ haux
          rw [← hc]
          simp [this, pageItems, heq]

/-- If any recorded call failed, the aggregation outcome is exactly that
failure: accumulated items are discarded. -/
theorem fetchAllPagesAux_error {E T : Type}
    (fp : RequiredPaginationParams → Except E (PaginatedResponse T))
    (fuel : Nat) :
    ∀ p acc calls out, fetchAllPagesAux fp p acc fuel = some (calls, out) →
      ∀ c ∈ calls, ∀ e, fp c = Except.error e → out = Except.error e := by
  induction fuel with
  | zero => intro p acc calls out h; simp [fetchAllPagesAux] at h
  | succ fuel ih =>
    intro p acc calls out h
    simp only [fetchAllPagesAux] at h
    split at h
    next e2 heq =>
      simp at h
      obtain ⟨hc, ho⟩ := h
      intro c hcmem e hce
      rw [← hc] at hcmem
      simp at hcmem
      rw [hcmem, heq] at hce
      rw [← ho]
      simp at hce
      rw [hce]
    next r heq =>
      split at h
      next hl =>
        simp at h
        obtain ⟨hc, ho⟩ := h
        intro c hcmem e hce
        rw [← hc] at hcmem
        simp at hcmem
        rw [hcmem, heq] at hce
        exact absurd hce (by simp)
      next hl =>
        split at h
        next haux => simp at h
        next calls2 out2 haux =>
          simp at h
          obtain ⟨hc, ho⟩ := h
          intro c hcmem e hce
          rw [← hc] at hcmem
          cases hcmem with
          | head =>
            rw [heq] at hce
            exact absurd hce (by simp)
          | tail _ hmem =>
            rw [← ho]
            exact ih _ _ _ _ haux c hmem e hce

/-- C2: fetchAllPages first invokes fetchPage with the normalized initial
cursor; after each response with isLast false it invokes it again with
startAt increased by exactly the maxResults of the cursor itself and maxResults
unchanged; it performs no further fetch after a response with isLast true —
in particular the call the loop ends on either failed or returned isLast
true — and a source whose first response has isLast true is fetched exactly
once. -/
theorem fetchAllPages_cursor_advancement {E T : Type}
    (fetchPage : RequiredPaginationParams → Except E (PaginatedResponse T))
    (params : Option PaginationParams) (fuel : Nat)
    (calls : List RequiredPaginationParams)
    (h : fetchAllPagesCalls fetchPage params fuel = some calls) :
    calls.head? = some (createPaginationParams params)
    ∧ advancesByPageSize fetchPage calls
    ∧ (∀ (hne : calls ≠ []) r, fetchPage (calls.getLast hne) = Except.ok r →
        r.isLast = true)
    ∧ (∀ r, fetchPage (createPaginationParams params) = Except.ok r →
        r.isLast = true → calls = [createPaginationParams params]) := by
  unfold fetchAllPagesCalls at h
  cases haux : fetchAllPagesAux fetchPage (createPaginationParams params) [] fuel with
  | none => rw [haux] at h; simp at h
  | some pr =>
    obtain ⟨callsA, out⟩ := pr
    rw [haux] at h
    simp at h
    subst h
    refine ⟨fetchAllPagesAux_head fetchPage fuel _ _ _ _ haux,
      fetchAllPagesAux_chain fetchPage fuel _ _ _ _ haux,
      fetchAllPagesAux_last fetchPage fuel _ _ _ _ haux, ?_⟩
    intro r hr hl
    cases fuel with
    | zero => simp [fetchAllPagesAux] at haux
    | succ fuel2 =>
      rw [fetchAllPagesAux_single fetchPage fuel2 _ _ r hr hl] at haux
      simp at haux
      exact haux.1.symm

/-- C3: the sequence fetchAllPages returns on success is the concatenation,
in fetch order, of the values arrays of the fetched pages, preserving
within-page order, with no deduplication. -/
theorem fetchAllPages_concat {E T : Type}
    (fetchPage : RequiredPaginationParams → Except E (PaginatedResponse T))
    (params : Option PaginationParams) (fuel : Nat)
    (calls : List RequiredPaginationParams) (out : List T)
    (hcalls : fetchAllPagesCalls fetchPage params fuel = some calls)
    (hout : fetchAllPages fetchPage params fuel = some (Except.ok out)) :
    out = (calls.map (pageItems fetchPage)).flatten := by
  unfold fetchAllPagesCalls at hcalls
  unfold fetchAllPages at hout
  cases haux : fetchAllPagesAux fetchPage (createPaginationParams params) [] fuel with
  | none => rw [haux] at hout; simp at hout
  | some pr =>
    obtain ⟨callsA, outA⟩ := pr
    rw [haux] at hcalls hout
    simp at hcalls hout
    subst hcalls
    rw [hout] at haux
    simpa using fetchAllPagesAux_ok_items fetchPage fuel _ _ _ _ haux

/-- C6: if any of the fetchPage invocations performed by fetchAllPages
fails, the whole aggregation fails with that same error; items accumulated
from earlier successful pages are discarded and no truncated sequence is
returned. -/
theorem fetchAllPages_error_propagation {E T : Type}
    (fetchPage : RequiredPaginationParams → Except E (PaginatedResponse T))
    (params : Option PaginationParams) (fuel : Nat)
    (calls : List RequiredPaginationParams) (c : RequiredPaginationParams)
    (e : E)
    (hcalls : fetchAllPagesCalls fetchPage params fuel = some calls)
    (hc : c ∈ calls) (he : fetchPage c = Except.error e) :
    fetchAllPages fetchPage params fuel = some (Except.error e) := by
  unfold fetchAllPagesCalls at hcalls
  unfold fetchAllPages
  cases haux : fetchAllPagesAux fetchPage (createPaginationParams params) [] fuel with
  | none => rw [haux] at hcalls; simp at hcalls
  | some pr =>
    obtain ⟨callsA, out⟩ := pr
    rw [haux] at hcalls
    simp at hcalls
    subst hcalls
    simp
    exact fetchAllPagesAux_error fetchPage fuel _ _ _ _ haux c hc e he

/-- A page source whose single page reports isLast true on the first call. -/
def onePageSource : RequiredPaginationParams → Except Unit (PaginatedResponse Nat) :=
  fun p => Except.ok
    { values := [0], maxResults := p.maxResults, startAt := p.startAt,
      total := 1, isLast := true }

/-- Witness for C2: over a single-page source the aggregator records exactly
one call, at the normalized default cursor. -/
theorem fetchAllPages_cursor_advancement_witness :
    ∃ calls, fetchAllPagesCalls onePageSource none 3 = some calls
      ∧ calls = [createPaginationParams none] := by
  refine ⟨[createPaginationParams none], rfl, ?_⟩
  exact (fetchAllPages_cursor_advancement onePageSource none 3
      [createPaginationParams none] rfl).2.2.2
    { values := [0], maxResults := 50, startAt := 0, total := 1, isLast := true }
    rfl rfl

/-- The page source of the ordering example in the spec: pages with values
[1, 2], [3, 4] and [5], total 5, the last page flagged isLast. -/
def threePageSource : RequiredPaginationParams → Except Unit (PaginatedResponse Nat) :=
  fun p =>
    if p.startAt == 0 then
      Except.ok
        { values := [1, 2], maxResults := p.maxResults,
          startAt := p.startAt, total := 5, isLast := false }
    else if p.startAt == 50 then
      Except.ok
        { values := [3, 4], maxResults := p.maxResults,
          startAt := p.startAt, total := 5, isLast := false }
    else
      Except.ok
        { values := [5], maxResults := p.maxResults,
          startAt := p.startAt, total := 5, isLast := true }

/-- Witness for C3: over the example source the aggregator returns exactly
[1, 2, 3, 4, 5], which is the concatenation of the fetched pages. -/
theorem fetchAllPages_concat_witness :
    fetchAllPages threePageSource none 5 = some (Except.ok [1, 2, 3, 4, 5])
    ∧ [1, 2, 3, 4, 5] =
        (([{ maxResults := 50, startAt := 0 }, { maxResults := 50, startAt := 50 },
           { maxResults := 50, startAt := 100 }] :
            List RequiredPaginationParams).map (pageItems threePageSource)).flatten := by
  refine ⟨by rfl, ?_⟩
  exact fetchAllPages_concat threePageSource none 5
    [{ maxResults := 50, startAt := 0 }, { maxResults := 50, startAt := 50 },
     { maxResults := 50, startAt := 100 }] [1, 2, 3, 4, 5] (by rfl) (by rfl)

/-- A page source that succeeds on the first page and fails on the second. -/
def failingPageSource : RequiredPaginationParams → Except String (PaginatedResponse Nat) :=
  fun p =>
    if p.startAt == 0 then
      Except.ok
        { values := [1, 2], maxResults := p.maxResults,
          startAt := p.startAt, total := 5, isLast := false }
    else
      Except.error "network failure"

/-- Witness for C6: the second page fetch fails, so the whole aggregation
fails with that error and the items of the first page are discarded. -/
theorem fetchAllPages_error_propagation_witness :
    fetchAllPages failingPageSource none 4 = some (Except.error "network failure") := by
  exact fetchAllPages_error_propagation failingPageSource none 4
    [{ maxResults := 50, startAt := 0 }, { maxResults := 50, startAt := 50 }]
    { maxResults := 50, startAt := 50 } "network failure" (by rfl) (by simp) (by rfl)

/-- Upstream body of POST /search as read by searchIssues (src/api/issues.ts):
issues, total, startAt, maxResults. -/
structure SearchIssuesUpstream (T : Type) where
  issues : List T
  total : Int
  startAt : Int
  maxResults : Int
  deriving DecidableEq

/-- searchIssues response shaping (src/api/issues.ts): normalize the request
parameters, send them, then build the returned page from the upstream issues
and total with createPaginatedResponse. -/
def searchIssues {T : Type} (upstream : SearchIssuesUpstream T)
    (pagination : Option PaginationParams) : PaginatedResponse T :=
  let params := createPaginationParams pagination
  createPaginatedResponse upstream.issues upstream.total params

/-- Upstream body of GET /issue/.../comment as read by getComments
(src/api/issues.ts): comments, total, startAt, maxResults. -/
structure GetCommentsUpstream (T : Type) where
  comments : List T
  total : Int
  startAt : Int
  maxResults : Int
  deriving DecidableEq

/-- getComments response shaping (src/api/issues.ts). -/
def getComments {T : Type} (upstream : GetCommentsUpstream T)
    (pagination : Option PaginationParams) : PaginatedResponse T :=
  let params := createPaginationParams pagination
  createPaginatedResponse upstream.comments upstream.total params

/-- getAllProjects response shaping (src/api/projects.ts): the endpoint
returns a bare array, so the array length stands in for the total. -/
def getAllProjects {T : Type} (projects : List T)
    (pagination : Option PaginationParams) : PaginatedResponse T :=
  let params := createPaginationParams pagination
  createPaginatedResponse projects (projects.length : Int) params

/-- searchUsers response shaping (src/api/users.ts): bare array upstream,
length stands in for the total.  The query only affects the HTTP request,
not the shaping. -/
def searchUsers {T : Type} (query : String) (users : List T)
    (pagination : Option PaginationParams) : PaginatedResponse T :=
  let params := createPaginationParams pagination
  createPaginatedResponse users (users.length : Int) params

/-- getAssignableUsers response shaping (src/api/users.ts): bare array
upstream, length stands in for the total. -/
def getAssignableUsers {T : Type} (projectIdOrKey : String) (users : List T)
    (pagination : Option PaginationParams) : PaginatedResponse T :=
  let params := createPaginationParams pagination
  createPaginatedResponse users (users.length : Int) params

/-- Upstream body of GET /project/search as read by searchProjects
(src/api/projects.ts): values, total and the upstream isLast flag. -/
structure SearchProjectsUpstream (T : Type) where
  values : List T
  total : Int
  isLast : Bool
  deriving DecidableEq

/-- searchProjects response shaping (src/api/projects.ts): builds the result
record directly, copying values, total and isLast from the upstream reply and
startAt and maxResults from the normalized request parameters. -/
def searchProjects {T : Type} (upstream : SearchProjectsUpstream T)
    (pagination : Option PaginationParams) : PaginatedResponse T :=
  let params := createPaginationParams pagination
  { values := upstream.values
    total := upstream.total
    startAt := params.startAt
    maxResults := params.maxResults
    isLast := upstream.isLast }

/-- Counterexample to C1: searchProjects copies the upstream isLast flag
instead of recomputing it, so an upstream reply with an empty values array,
total 5 and isLast true yields a response whose isLast is true although
startAt + values.length >= total fails. -/
theorem searchProjects_isLast_not_recomputed :
    (searchProjects (T := Unit) { values := [], total := 5, isLast := true }
        none).isLast = true
    ∧ ¬ ((searchProjects (T := Unit)
          { values := [], total := 5, isLast := true } none).startAt
        + (((searchProjects (T := Unit)
          { values := [], total := 5, isLast := true } none).values.length : Int))
        ≥ (searchProjects (T := Unit)
          { values := [], total := 5, isLast := true } none).total) := by
  constructor
  · rfl
  · decide

/-- C1 amended: searchIssues, getComments, getAllProjects, searchUsers and
getAssignableUsers recompute isLast as startAt + values.length >= total via
createPaginatedResponse, ignoring any upstream flag; searchProjects instead
copies isLast verbatim from the upstream reply. -/
theorem paginated_isLast_invariant (T : Type) :
    (∀ (up : SearchIssuesUpstream T) (pg : Option PaginationParams),
      (searchIssues up pg).isLast
        = decide ((searchIssues up pg).startAt
            + ((searchIssues up pg).values.length : Int)
            ≥ (searchIssues up pg).total))
    ∧ (∀ (up : GetCommentsUpstream T) (pg : Option PaginationParams),
      (getComments up pg).isLast
        = decide ((getComments up pg).startAt
            + ((getComments up pg).values.length : Int)
            ≥ (getComments up pg).total))
    ∧ (∀ (projects : List T) (pg : Option PaginationParams),
      (getAllProjects projects pg).isLast
        = decide ((getAllProjects projects pg).startAt
            + ((getAllProjects projects pg).values.length : Int)
            ≥ (getAllProjects projects pg).total))
    ∧ (∀ (q : String) (users : List T) (pg : Option PaginationParams),
      (searchUsers q users pg).isLast
        = decide ((searchUsers q users pg).startAt
            + ((searchUsers q users pg).values.length : Int)
            ≥ (searchUsers q users pg).total))
    ∧ (∀ (k : String) (users : List T) (pg : Option PaginationParams),
      (getAssignableUsers k users pg).isLast
        = decide ((getAssignableUsers k users pg).startAt
            + ((getAssignableUsers k users pg).values.length : Int)
            ≥ (getAssignableUsers k users pg).total))
    ∧ (∀ (up : SearchProjectsUpstream T) (pg : Option PaginationParams),
      (searchProjects up pg).isLast = up.isLast) := by
  refine ⟨fun up pg => rfl, fun up pg => rfl, fun projects pg => rfl,
    fun q users pg => rfl, fun k users pg => rfl, fun up pg => rfl⟩

/-- C7: the operations whose upstream returns a bare array without a total
(getAllProjects, searchUsers, getAssignableUsers) report total equal to the
length of the fetched array, and hence isLast true, for every requested
startAt >= 0 and any maxResults. -/
theorem bare_array_total_isLast {T : Type}
    (items : List T) (q k : String) (pg : Option PaginationParams)
    (hstart : 0 ≤ (createPaginationParams pg).startAt) :
    (getAllProjects items pg).total = (items.length : Int)
    ∧ (getAllProjects items pg).isLast = true
    ∧ (searchUsers q items pg).total = (items.length : Int)
    ∧ (searchUsers q items pg).isLast = true
    ∧ (getAssignableUsers k items pg).total = (items.length : Int)
    ∧ (getAssignableUsers k items pg).isLast = true := by
  have hlast : decide ((createPaginationParams pg).startAt
      + (items.length : Int) ≥ (items.length : Int)) = true := by
    simp
    omega
  exact ⟨rfl, hlast, rfl, hlast, rfl, hlast⟩

/-- Witness for C7: one concrete project list with default parameters. -/
theorem bare_array_total_isLast_witness :
    (getAllProjects ([10, 20] : List Nat) none).total = 2
    ∧ (getAllProjects ([10, 20] : List Nat) none).isLast = true := by
  have h := bare_array_total_isLast ([10, 20] : List Nat) "q" "PRJ" none (by decide)
  exact ⟨h.1, h.2.1⟩

/-- C9: searchIssues and getComments take the startAt and maxResults of the
response they return from the normalized request parameters, not from the
fields reported in the body sent by the server — changing the server-reported startAt
or maxResults leaves the result unchanged — and isLast is recomputed from
the startAt of the request, the returned item count and the server-reported
total. -/
theorem request_params_override_upstream (T : Type) :
    (∀ (up : SearchIssuesUpstream T) (pg : Option PaginationParams),
      (searchIssues up pg).startAt = (createPaginationParams pg).startAt
      ∧ (searchIssues up pg).maxResults = (createPaginationParams pg).maxResults
      ∧ (searchIssues up pg).isLast
          = decide ((createPaginationParams pg).startAt
              + (up.issues.length : Int) ≥ up.total)
      ∧ (∀ s m : Int,
          searchIssues { up with startAt := s, maxResults := m } pg
            = searchIssues up pg))
    ∧ (∀ (up : GetCommentsUpstream T) (pg : Option PaginationParams),
      (getComments up pg).startAt = (createPaginationParams pg).startAt
      ∧ (getComments up pg).maxResults = (createPaginationParams pg).maxResults
      ∧ (getComments up pg).isLast
          = decide ((createPaginationParams pg).startAt
              + (up.comments.length : Int) ≥ up.total)
      ∧ (∀ s m : Int,
          getComments { up with startAt := s, maxResults := m } pg
            = getComments up pg)) := by
  exact ⟨fun up pg => ⟨rfl, rfl, rfl, fun s m => rfl⟩,
    fun up pg => ⟨rfl, rfl, rfl, fun s m => rfl⟩⟩

/-- The two fields of a JiraTransition consulted by transitionIssue; the
remaining fields of the TS interface are pass-through payload it never reads. -/
structure JiraTransition where
  id : String
  name : String
  deriving DecidableEq

/-- transitionIssue from src/api/issues.ts, on the fetched candidate list:
find the first transition whose id or name equals the input, post its id
(returned here as the ok value), or throw a not-found error naming the input
and the issue (returned here as the error message) and post nothing. -/
def transitionIssue (issueIdOrKey : String) (transitions : List JiraTransition)
    (transitionIdOrName : String) : Except String String :=
  match transitions.find?
      (fun t => t.id == transitionIdOrName || t.name == transitionIdOrName) with
  | some transition => Except.ok transition.id
  | none => Except.error
      ("Transition \"" ++ transitionIdOrName ++ "\" not found for issue "
        ++ issueIdOrKey)

/-- Selection rule exactly as the spec words it, for comparison with the
code: the first entry whose ID equals the input, else the first entry whose
name equals the input. -/
def specSelectTransition (transitions : List JiraTransition) (x : String) :
    Option JiraTransition :=
  match transitions.find? (fun t => t.id == x) with
  | some t => some t
  | none => transitions.find? (fun t => t.name == x)

/-- Counterexample to C4: with candidates id 1 / name 2 and id 2 / name
Other, resolving the input 2 makes the code select the first candidate (its
name matches during the single id-or-name pass) and post id 1, while the
claimed id-before-name rule selects the second candidate, id 2. -/
theorem transitionIssue_id_priority_counterexample :
    transitionIssue "KEY-1"
        [{ id := "1", name := "2" }, { id := "2", name := "Other" }] "2"
      = Except.ok "1"
    ∧ specSelectTransition
        [{ id := "1", name := "2" }, { id := "2", name := "Other" }] "2"
      = some { id := "2", name := "Other" }
    ∧ ("1" : String) ≠ "2" := by
  exact ⟨rfl, rfl, by decide⟩

/-- C4 amended: transitionIssue selects the first candidate, in list order,
whose id or name equals the input (a single pass testing id and name
together, case-sensitive exact match), and posts the id of that candidate; if no
candidate has the input as its id or name it fails with a not-found error
naming the input and the issue key and performs no transition request. -/
theorem transitionIssue_first_match (issueIdOrKey : String)
    (transitions : List JiraTransition) (x : String) :
    (∀ tid, transitionIssue issueIdOrKey transitions x = Except.ok tid →
      ∃ i, ∃ h : i < transitions.length,
        ((transitions.get ⟨i, h⟩).id = x ∨ (transitions.get ⟨i, h⟩).name = x)
        ∧ tid = (transitions.get ⟨i, h⟩).id
        ∧ ∀ j (hj : j < i),
            ¬ ((transitions.get ⟨j, Nat.lt_trans hj h⟩).id = x
              ∨ (transitions.get ⟨j, Nat.lt_trans hj h⟩).name = x))
    ∧ ((∀ t ∈ transitions, t.id ≠ x ∧ t.name ≠ x) →
        transitionIssue issueIdOrKey transitions x
          = Except.error
              ("Transition \"" ++ x ++ "\" not found for issue "
                ++ issueIdOrKey)) := by
  constructor
  · intro tid hok
    induction transitions with
    | nil => simp [transitionIssue] at hok
    | cons t ts ih =>
      by_cases hmatch : (t.id == x || t.name == x) = true
      · refine ⟨0, by simp, ?_, ?_, ?_⟩
        · simpa using hmatch
        · simp only [transitionIssue, List.find?_cons, hmatch] at hok
          simp at hok
          simp [hok]
        · intro j hj
          exact absurd hj (Nat.not_lt_zero j)
      · have hfalse : (t.id == x || t.name == x) = false := by
          simpa using hmatch
        have hrec : transitionIssue issueIdOrKey ts x = Except.ok tid := by
          simp only [transitionIssue, List.find?_cons] at hok ⊢
          rw [hfalse] at hok
          exact hok
        obtain ⟨i, h, hsel, htid, hbefore⟩ := ih hrec
        refine ⟨i + 1, by simpa using Nat.succ_lt_succ h, ?_, ?_, ?_⟩
        · simpa using hsel
        · simpa using htid
        · intro j hj
          cases j with
          | zero =>
            simp only [List.get]
            intro hcontra
            apply hmatch
            rcases hcontra with hc | hc <;> simp [hc]
          | succ j2 =>
            have hj2 : j2 < i := Nat.lt_of_succ_lt_succ hj
            simpa using hbefore j2 hj2
  · intro hnone
    have hfind : transitions.find?
        (fun t => t.id == x || t.name == x) = none := by
      rw [List.find?_eq_none]
      intro t ht
      have := hnone t ht
      simp [this.1, this.2]
    simp [transitionIssue, hfind]

/-- Witness for C4 amended, on the example candidates of the spec: resolving
the name Done, which no candidate carries as id or name, yields the
not-found error; resolving 10001 posts id 10001. -/
theorem transitionIssue_first_match_witness :
    transitionIssue "PROJ-7"
        [{ id := "10000", name := "To Do" }, { id := "10001", name := "In Progress" }]
        "Done"
      = Except.error "Transition \"Done\" not found for issue PROJ-7"
    ∧ transitionIssue "PROJ-7"
        [{ id := "10000", name := "To Do" }, { id := "10001", name := "In Progress" }]
        "10001"
      = Except.ok "10001" := by
  constructor
  · have h := (transitionIssue_first_match "PROJ-7"
        [{ id := "10000", name := "To Do" }, { id := "10001", name := "In Progress" }]
        "Done").2 (by decide)
    simpa using h
  · rfl

/-- JiraApiError response body as read defensively by handleApiError
(src/utils/error.ts): both fields may be absent at runtime, and the errors
map is an association list in key insertion order, matching the order
Object.keys and Object.values enumerate a JS object built from a JSON
body. -/
structure JiraApiErrorBody where
  errorMessages : Option (List String)
  errors : Option (List (String × String))
  deriving DecidableEq

/-- The part of an axios response handleApiError consults: HTTP status and
the optional parsed body. -/
structure AxiosResponseData where
  status : Nat
  data : Option JiraApiErrorBody
  deriving DecidableEq

/-- The unknown failure value handleApiError receives: an axios transport
error (with its message and optional HTTP response), a generic JS Error, or
anything else. -/
inductive ApiFailure where
  | axiosError (message : String) (response : Option AxiosResponseData)
  | jsError (message : String)
  | unknownFailure
  deriving DecidableEq

/-- JiraError from src/utils/error.ts: the normalized error shape, with the
constructor defaults status 500, empty errors map and empty message list. -/
structure JiraError where
  message : String
  status : Nat
  errors : List (String × String)
  errorMessages : List String
  deriving DecidableEq

/-- handleApiError from src/utils/error.ts.  The JS truthiness test
response?.status or-else 500 becomes a zero test on the present status; the
null-coalescing defaults errorMessages or-else empty and errors or-else
empty become Option.getD. -/
def handleApiError (error : ApiFailure) : JiraError :=
  match error with
  | ApiFailure.axiosError msg response =>
    let status : Nat :=
      match response with
      | none => 500
      | some r => if r.status == 0 then 500 else r.status
    (match response with
     | some r =>
       match r.data with
       | some data =>
         let errorMessages := data.errorMessages.getD []
         let errors := data.errors.getD []
         let message :=
           match errorMessages with
           | m :: _ => m
           | [] =>
             match errors with
             | (k, v) :: _ => k ++ ": " ++ v
             | [] => msg
         { message := message, status := status, errors := errors,
           errorMessages := errorMessages }
       | none =>
         { message := msg, status := status, errors := [],
           errorMessages := [] }
     | none =>
       { message := msg, status := status, errors := [],
         errorMessages := [] })
  | ApiFailure.jsError msg =>
      { message := msg, status := 500, errors := [], errorMessages := [] }
  | ApiFailure.unknownFailure =>
      { message := "Unknown error occurred", status := 500, errors := [],
        errorMessages := [] }

/-- C5: handleApiError is a total function to the normalized shape.  With a
structured body present, the summary is the first errorMessages entry when
that list is non-empty, else a field: message string from the first entry of
the errors map when that is non-empty, else the transport message, and the
list and map of the body are preserved; a generic Error keeps its own message; any
other failure gets the unknown-error summary; the status comes from the HTTP
response and defaults to 500 when no response is present.  The last conjunct
is the concrete 404 example of the spec. -/
theorem handleApiError_normalization :
    (∀ (msg : String) (s : Nat) (m0 : String) (ems : List String)
        (errs : Option (List (String × String))),
      handleApiError (ApiFailure.axiosError msg (some
          { status := s,
            data := some { errorMessages := some (m0 :: ems), errors := errs } }))
        = { message := m0, status := if s == 0 then 500 else s,
            errors := errs.getD [], errorMessages := m0 :: ems })
    ∧ (∀ (msg : String) (s : Nat) (k v : String) (kvs : List (String × String)),
      handleApiError (ApiFailure.axiosError msg (some
          { status := s,
            data := some { errorMessages := some [], errors := some ((k, v) :: kvs) } }))
        = { message := k ++ ": " ++ v, status := if s == 0 then 500 else s,
            errors := (k, v) :: kvs, errorMessages := [] })
    ∧ (∀ (msg : String) (s : Nat) (k v : String) (kvs : List (String × String)),
      handleApiError (ApiFailure.axiosError msg (some
          { status := s,
            data := some { errorMessages := none, errors := some ((k, v) :: kvs) } }))
        = { message := k ++ ": " ++ v, status := if s == 0 then 500 else s,
            errors := (k, v) :: kvs, errorMessages := [] })
    ∧ (∀ (msg : String) (s : Nat),
      handleApiError (ApiFailure.axiosError msg (some
          { status := s,
            data := some { errorMessages := some [], errors := some [] } }))
        = { message := msg, status := if s == 0 then 500 else s,
            errors := [], errorMessages := [] })
    ∧ (∀ (msg : String) (s : Nat),
      handleApiError (ApiFailure.axiosError msg (some
          { status := s, data := some { errorMessages := none, errors := none } }))
        = { message := msg, status := if s == 0 then 500 else s,
            errors := [], errorMessages := [] })
    ∧ (∀ (msg : String) (s : Nat),
      handleApiError (ApiFailure.axiosError msg (some { status := s, data := none }))
        = { message := msg, status := if s == 0 then 500 else s,
            errors := [], errorMessages := [] })
    ∧ (∀ msg : String,
      handleApiError (ApiFailure.axiosError msg none)
        = { message := msg, status := 500, errors := [], errorMessages := [] })
    ∧ (∀ msg : String,
      handleApiError (ApiFailure.jsError msg)
        = { message := msg, status := 500, errors := [], errorMessages := [] })
    ∧ handleApiError ApiFailure.unknownFailure
        = { message := "Unknown error occurred", status := 500, errors := [],
            errorMessages := [] }
    ∧ handleApiError (ApiFailure.axiosError "Request failed with status code 404"
          (some
            { status := 404,
              data := some
                { errorMessages := some ["Issue does not exist"],
                  errors := some [] } }))
        = { message := "Issue does not exist", status := 404, errors := [],
            errorMessages := ["Issue does not exist"] } := by
  exact ⟨fun msg s m0 ems errs => rfl, fun msg s k v kvs => rfl,
    fun msg s k v kvs => rfl, fun msg s => rfl, fun msg s => rfl,
    fun msg s => rfl, fun msg => rfl, fun msg => rfl, rfl, rfl⟩

/-- Truthiness of a TS string-or-null value: null and the empty string are
falsy, every other string is truthy. -/
def truthyString (s : Option String) : Bool :=
  match s with
  | none => false
  | some str => !(str == "")

/-- assignIssue request body from src/api/issues.ts: the accountId field of
the PUT body sent to /issue/.../assignee — some id to assign, none for the
JSON null that unassigns.  The source branches on JS truthiness of the
accountId argument. -/
def assignIssueBody (accountId : Option String) : Option String :=
  if truthyString accountId then accountId else none

/-- C10: assignIssue sends the accountId itself when it is a non-empty
string, and sends the unassign body with accountId null when the argument is
null — and also when it is the empty string, which therefore unassigns
rather than assigning an empty-string account id. -/
theorem assignIssue_empty_string_unassigns :
    (∀ s : String, s ≠ "" → assignIssueBody (some s) = some s)
    ∧ assignIssueBody (some "") = none
    ∧ assignIssueBody none = none := by
  refine ⟨?_, rfl, rfl⟩
  intro s hs
  simp [assignIssueBody, truthyString, hs]

/-- Witness for C10 at a concrete non-empty account id. -/
theorem assignIssue_empty_string_unassigns_witness :
    ("5b10ac8d82e05b22cc7d4ef5" : String) ≠ ""
    ∧ assignIssueBody (some "5b10ac8d82e05b22cc7d4ef5")
        = some "5b10ac8d82e05b22cc7d4ef5" := by
  exact ⟨by decide, assignIssue_empty_string_unassigns.1 _ (by decide)⟩

end JiraClient
